import Mathlib

/-!
Verification of the epoch-level coherence analysis driver
(`src/scripts/run_by_epoch.py`).

The driver orchestrates, for one epoch of one animal's recordings:
ripple detection, LFP loading, ripple-triggered coherence over a fixed
catalog of eight multitaper parameter sets, ripple classification and
covariate-stratified coherence over three fixed covariates, with
persistence calls interleaved.

The embedding below translates the module-level data tables verbatim and
models the orchestration function `estimate_ripple_coherence` as a pure
function over a record of collaborator behaviors.  Each collaborator call
returns `Except ε α` (Python exceptions become `Except.error`), and the
orchestrator produces the list of collaborator invocations it performed
(in order, with their arguments) together with the run's outcome.
Time and frequency quantities (Python floats used only as opaque
configuration values) are modelled as rationals.
-/

/-- An epoch identifier: `(animal short name, day, epoch number)`,
built from the three positional command-line arguments. -/
abbrev EpochIndex := String × Int × Int

/-- `Animal = namedtuple('Animal', {'directory', 'short_name'})`. -/
structure Animal where
  directory : String
  short_name : String
deriving DecidableEq

/-- `sampling_frequency = 1500`. -/
def sampling_frequency : ℚ := 1500

/-- The animal registry (`animals`, lines 22-26), in source order. -/
def animals : List (String × Animal) :=
  [("HPa", ⟨"HPa_direct", "HPa"⟩),
   ("HPb", ⟨"HPb_direct", "HPb"⟩),
   ("HPc", ⟨"HPc_direct", "HPc"⟩)]

/-- One multitaper configuration dictionary (the keyword fields shared by
all eight entries of the catalog). -/
structure MultitaperParams where
  sampling_frequency : ℚ
  time_window_duration : ℚ
  time_window_step : ℚ
  desired_frequencies : ℚ × ℚ
  time_halfbandwidth_product : ℚ
  window_of_interest : ℚ × ℚ
deriving DecidableEq

/-- `ripple_frequency` (lines 27-34). -/
def ripple_frequency : MultitaperParams :=
  ⟨sampling_frequency, 0.020, 0.020, (100, 300), 1, (-0.420, 0.400)⟩

/-- `gamma_frequency_highTimeRes` (lines 35-42). -/
def gamma_frequency_highTimeRes : MultitaperParams :=
  ⟨sampling_frequency, 0.050, 0.050, (12, 125), 1, (-0.450, 0.400)⟩

/-- `gamma_frequency_medFreqRes1` (lines 43-50). -/
def gamma_frequency_medFreqRes1 : MultitaperParams :=
  ⟨sampling_frequency, 0.100, 0.100, (12, 125), 1, (-0.500, 0.400)⟩

/-- `gamma_frequency_medFreqRes2` (lines 51-58). -/
def gamma_frequency_medFreqRes2 : MultitaperParams :=
  ⟨sampling_frequency, 0.200, 0.200, (12, 125), 1, (-0.600, 0.400)⟩

/-- `gamma_frequency_highFreqRes` (lines 59-66). -/
def gamma_frequency_highFreqRes : MultitaperParams :=
  ⟨sampling_frequency, 0.400, 0.400, (12, 125), 1, (-0.800, 0.400)⟩

/-- `low_frequency_highTimeRes` (lines 67-74). -/
def low_frequency_highTimeRes : MultitaperParams :=
  ⟨sampling_frequency, 0.100, 0.100, (0, 30), 1, (-0.500, 0.400)⟩

/-- `low_frequency_medFreqRes` (lines 75-82). -/
def low_frequency_medFreqRes : MultitaperParams :=
  ⟨sampling_frequency, 0.250, 0.250, (0, 30), 1, (-0.750, 0.250)⟩

/-- `low_frequency_highFreqRes` (lines 83-90). -/
def low_frequency_highFreqRes : MultitaperParams :=
  ⟨sampling_frequency, 0.500, 0.500, (0, 30), 1, (-1.00, 0.500)⟩

/-- The Parameter Catalog (`multitaper_parameters`, lines 91-100), an
association list in the dict's insertion order, which is the iteration
order of `dict.items()` in Python 3.7+. -/
def multitaper_parameters : List (String × MultitaperParams) :=
  [("gamma_frequency_medFreqRes1", gamma_frequency_medFreqRes1),
   ("gamma_frequency_medFreqRes2", gamma_frequency_medFreqRes2),
   ("gamma_frequency_highTimeRes", gamma_frequency_highTimeRes),
   ("gamma_frequency_highFreqRes", gamma_frequency_highFreqRes),
   ("low_frequencies_highTimeRes", low_frequency_highTimeRes),
   ("low_frequencies_medFreqRes", low_frequency_medFreqRes),
   ("low_frequencies_highFreqRes", low_frequency_highFreqRes),
   ("ripple_frequencies", ripple_frequency)]

/-- `ripple_covariates` (lines 101-102). -/
def ripple_covariates : List String :=
  ["session_time", "ripple_trajectory", "ripple_direction"]

/-- The well-formedness constraint the specification states for catalog
entries: the window of interest and the desired-frequency band are each
an increasing pair. -/
def validCatalogEntry (p : MultitaperParams) : Prop :=
  p.window_of_interest.1 < p.window_of_interest.2 ∧
    p.desired_frequencies.1 < p.desired_frequencies.2

instance (p : MultitaperParams) : Decidable (validCatalogEntry p) :=
  inferInstanceAs (Decidable (And _ _))

/-- Construction of the Parameter Catalog.  In the source the catalog is
built by a plain dict literal (lines 91-100): Python dict construction
performs no inspection of the values, so construction succeeds for any
entry list.  The `Except` codomain models the possibility of a fail-fast
abort at startup; the source never uses it. -/
def constructCatalog (entries : List (String × MultitaperParams)) :
    Except String (List (String × MultitaperParams)) :=
  Except.ok entries

/-- The events an epoch run can emit: one constructor per collaborator
operation, recording the arguments of the invocation.  The payload types
of the external collaborators' outputs are opaque type parameters:
`L` = LFP traces, `T` = tetrode info, `R` = ripple times, `RI` = ripple
info.  The constant `animals` registry argument is not recorded. -/
inductive Event (L T R RI : Type) : Type where
  | detectEpochRipples (epoch_index : EpochIndex) (fs : ℚ)
  | getEpochLfps (epoch_index : EpochIndex)
  | saveTetrodePairInfo (epoch_index : EpochIndex) (tetrode_info : T)
  | rippleTriggeredCoherence (lfps : L) (ripple_times : R)
      (name : String) (params : MultitaperParams)
  | rippleTriggeredCanonicalCoherence (lfps : L) (epoch_index : EpochIndex)
      (tetrode_info : T) (ripple_times : R)
      (name : String) (params : MultitaperParams)
  | saveMultitaperParameters (epoch_index : EpochIndex)
      (name : String) (params : MultitaperParams)
  | decodeRippleClusterless (epoch_index : EpochIndex) (ripple_times : R)
  | saveRippleInfo (epoch_index : EpochIndex) (ripple_info : RI)
  | coherenceByRippleType (lfps : L) (ripple_info : RI) (covariate : String)
      (name : String) (params : MultitaperParams)
  | canonicalCoherenceByRippleType (lfps : L) (epoch_index : EpochIndex)
      (tetrode_info : T) (ripple_info : RI) (covariate : String)
      (name : String) (params : MultitaperParams)

/-- The behavior of the five external collaborators, as the orchestrator
sees them.  `D` is the type of the remainder of the ripple classifier's
result tuple (the source keeps only element `[0]`); `ε` is the type of
raised exceptions. -/
structure Collaborators (L T R RI D ε : Type) : Type where
  detect_epoch_ripples :
    EpochIndex → List (String × Animal) → ℚ → Except ε R
  get_epoch_lfps : EpochIndex → List (String × Animal) → Except ε (L × T)
  save_tetrode_pair_info : EpochIndex → T → Except ε Unit
  ripple_triggered_coherence :
    L → R → String → MultitaperParams → Except ε Unit
  ripple_triggered_canonical_coherence :
    L → EpochIndex → T → R → String → MultitaperParams → Except ε Unit
  save_multitaper_parameters :
    EpochIndex → String → MultitaperParams → Except ε Unit
  decode_ripple_clusterless :
    EpochIndex → List (String × Animal) → R → Except ε (RI × D)
  save_ripple_info : EpochIndex → RI → Except ε Unit
  coherence_by_ripple_type :
    L → RI → String → String → MultitaperParams → Except ε Unit
  canonical_coherence_by_ripple_type :
    L → EpochIndex → T → RI → String → String → MultitaperParams →
      Except ε Unit

/-- Sequence a sub-run before a continuation: a Python statement sequence
where an uncaught exception in the first part aborts the rest.  The
events of the first part are kept even when it raises. -/
def bindRun {E ε α : Type} (r : List E × Except ε α)
    (k : α → List E × Except ε Unit) : List E × Except ε Unit :=
  match r with
  | (tr, Except.error err) => (tr, Except.error err)
  | (tr, Except.ok a) => (tr ++ (k a).1, (k a).2)

/-- One collaborator call: the invocation event is emitted, then the call
either raises (aborting the run) or yields a value to the continuation. -/
def callStep {E ε α : Type} (ev : E) (res : Except ε α)
    (k : α → List E × Except ε Unit) : List E × Except ε Unit :=
  bindRun ([ev], res) k

/-- The first loop of `estimate_ripple_coherence` (lines 112-122): for
each catalog entry, ripple-triggered pairwise coherence, then
ripple-triggered canonical coherence, then persist the parameters. -/
def triggeredPhase {L T R RI D ε : Type} (c : Collaborators L T R RI D ε)
    (epoch_index : EpochIndex) (lfps : L) (tetrode_info : T)
    (ripple_times : R) :
    List (String × MultitaperParams) →
      List (Event L T R RI) × Except ε Unit
  | [] => ([], Except.ok ())
  | (parameters_name, parameters) :: rest =>
    callStep
      (Event.rippleTriggeredCoherence lfps ripple_times parameters_name
        parameters)
      (c.ripple_triggered_coherence lfps ripple_times parameters_name
        parameters) fun _ =>
    callStep
      (Event.rippleTriggeredCanonicalCoherence lfps epoch_index
        tetrode_info ripple_times parameters_name parameters)
      (c.ripple_triggered_canonical_coherence lfps epoch_index
        tetrode_info ripple_times parameters_name parameters) fun _ =>
    callStep
      (Event.saveMultitaperParameters epoch_index parameters_name
        parameters)
      (c.save_multitaper_parameters epoch_index parameters_name
        parameters) fun _ =>
    triggeredPhase c epoch_index lfps tetrode_info ripple_times rest

/-- The body of the second loop for one covariate (lines 130-138): for
each catalog entry, stratified pairwise coherence then stratified
canonical coherence. -/
def stratifiedInner {L T R RI D ε : Type} (c : Collaborators L T R RI D ε)
    (epoch_index : EpochIndex) (lfps : L) (tetrode_info : T)
    (ripple_info : RI) (covariate : String) :
    List (String × MultitaperParams) →
      List (Event L T R RI) × Except ε Unit
  | [] => ([], Except.ok ())
  | (parameters_name, parameters) :: rest =>
    callStep
      (Event.coherenceByRippleType lfps ripple_info covariate
        parameters_name parameters)
      (c.coherence_by_ripple_type lfps ripple_info covariate
        parameters_name parameters) fun _ =>
    callStep
      (Event.canonicalCoherenceByRippleType lfps epoch_index tetrode_info
        ripple_info covariate parameters_name parameters)
      (c.canonical_coherence_by_ripple_type lfps epoch_index tetrode_info
        ripple_info covariate parameters_name parameters) fun _ =>
    stratifiedInner c epoch_index lfps tetrode_info ripple_info covariate
      rest

/-- The second loop of `estimate_ripple_coherence` (lines 129-138):
covariates outer, catalog entries inner. -/
def stratifiedPhase {L T R RI D ε : Type} (c : Collaborators L T R RI D ε)
    (epoch_index : EpochIndex) (lfps : L) (tetrode_info : T)
    (ripple_info : RI) :
    List String → List (Event L T R RI) × Except ε Unit
  | [] => ([], Except.ok ())
  | covariate :: rest =>
    bindRun
      (stratifiedInner c epoch_index lfps tetrode_info ripple_info
        covariate multitaper_parameters) fun _ =>
    stratifiedPhase c epoch_index lfps tetrode_info ripple_info rest

/-- `estimate_ripple_coherence(epoch_index)` (lines 105-138), as a
function of the collaborator behaviors: returns the ordered list of
collaborator invocations performed and the run's outcome. -/
def estimate_ripple_coherence {L T R RI D ε : Type}
    (c : Collaborators L T R RI D ε) (epoch_index : EpochIndex) :
    List (Event L T R RI) × Except ε Unit :=
  callStep (Event.detectEpochRipples epoch_index sampling_frequency)
    (c.detect_epoch_ripples epoch_index animals sampling_frequency)
    fun ripple_times =>
  callStep (Event.getEpochLfps epoch_index)
    (c.get_epoch_lfps epoch_index animals) fun lt =>
  callStep (Event.saveTetrodePairInfo epoch_index lt.2)
    (c.save_tetrode_pair_info epoch_index lt.2) fun _ =>
  bindRun
    (triggeredPhase c epoch_index lt.1 lt.2 ripple_times
      multitaper_parameters) fun _ =>
  callStep (Event.decodeRippleClusterless epoch_index ripple_times)
    (c.decode_ripple_clusterless epoch_index animals ripple_times)
    fun rid =>
  callStep (Event.saveRippleInfo epoch_index rid.1)
    (c.save_ripple_info epoch_index rid.1) fun _ =>
  stratifiedPhase c epoch_index lt.1 lt.2 rid.1 ripple_covariates

/-- Any of the four Coherence Engine operations. -/
def isCoherenceCall {L T R RI : Type} : Event L T R RI → Bool
  | Event.rippleTriggeredCoherence .. => true
  | Event.rippleTriggeredCanonicalCoherence .. => true
  | Event.coherenceByRippleType .. => true
  | Event.canonicalCoherenceByRippleType .. => true
  | _ => false

/-- A ripple-triggered (phase one) Coherence Engine operation. -/
def isTriggeredCoherenceCall {L T R RI : Type} : Event L T R RI → Bool
  | Event.rippleTriggeredCoherence .. => true
  | Event.rippleTriggeredCanonicalCoherence .. => true
  | _ => false

/-- A covariate-stratified (phase two) Coherence Engine operation. -/
def isStratifiedCoherenceCall {L T R RI : Type} : Event L T R RI → Bool
  | Event.coherenceByRippleType .. => true
  | Event.canonicalCoherenceByRippleType .. => true
  | _ => false

/-- The LFP Loader operation. -/
def isGetEpochLfps {L T R RI : Type} : Event L T R RI → Bool
  | Event.getEpochLfps _ => true
  | _ => false

/-- The Ripple Classifier operation. -/
def isDecodeRippleClusterless {L T R RI : Type} : Event L T R RI → Bool
  | Event.decodeRippleClusterless .. => true
  | _ => false

/-- The tetrode-pair-info persistence operation. -/
def isSaveTetrodePairInfo {L T R RI : Type} : Event L T R RI → Bool
  | Event.saveTetrodePairInfo .. => true
  | _ => false

/-- The parameter-set persistence operation. -/
def isSaveMultitaperParameters {L T R RI : Type} : Event L T R RI → Bool
  | Event.saveMultitaperParameters .. => true
  | _ => false

/-- The ripple-info persistence operation. -/
def isSaveRippleInfo {L T R RI : Type} : Event L T R RI → Bool
  | Event.saveRippleInfo .. => true
  | _ => false

/-- Any Persistence Layer operation. -/
def isPersistenceCall {L T R RI : Type} : Event L T R RI → Bool
  | Event.saveTetrodePairInfo .. => true
  | Event.saveMultitaperParameters .. => true
  | Event.saveRippleInfo .. => true
  | _ => false

/-- The triggered pairwise coherence call for a given parameter-set
name. -/
def isTriggeredPairwiseNamed {L T R RI : Type} (n : String) :
    Event L T R RI → Bool
  | Event.rippleTriggeredCoherence _ _ name _ => name == n
  | _ => false

/-- The triggered canonical coherence call for a given parameter-set
name. -/
def isTriggeredCanonicalNamed {L T R RI : Type} (n : String) :
    Event L T R RI → Bool
  | Event.rippleTriggeredCanonicalCoherence _ _ _ _ name _ => name == n
  | _ => false

/-- The parameter-set persistence call for a given parameter-set name. -/
def isSaveMultitaperParametersNamed {L T R RI : Type} (n : String) :
    Event L T R RI → Bool
  | Event.saveMultitaperParameters _ name _ => name == n
  | _ => false

/-- The stratified pairwise coherence call for a given covariate and
parameter-set name. -/
def isStratifiedPairwiseNamed {L T R RI : Type} (cov n : String) :
    Event L T R RI → Bool
  | Event.coherenceByRippleType _ _ covariate name _ =>
      covariate == cov && name == n
  | _ => false

/-- The stratified canonical coherence call for a given covariate and
parameter-set name. -/
def isStratifiedCanonicalNamed {L T R RI : Type} (cov n : String) :
    Event L T R RI → Bool
  | Event.canonicalCoherenceByRippleType _ _ _ _ covariate name _ =>
      covariate == cov && name == n
  | _ => false

/-- Holds when an event, if it is a stratified coherence call, carries
the given ripple-info value as argument. -/
def usesRippleInfo {L T R RI : Type} (ri : RI) : Event L T R RI → Prop
  | Event.coherenceByRippleType _ ri2 _ _ _ => ri2 = ri
  | Event.canonicalCoherenceByRippleType _ _ _ ri2 _ _ _ => ri2 = ri
  | _ => True

/-- The invocation sequence of the triggered-coherence loop on a given
entry list, when every call returns normally. -/
def triggeredTrace {L T R RI : Type} (e : EpochIndex) (l : L) (t : T)
    (r : R) (ps : List (String × MultitaperParams)) :
    List (Event L T R RI) :=
  ps.flatMap fun np =>
    [Event.rippleTriggeredCoherence l r np.1 np.2,
     Event.rippleTriggeredCanonicalCoherence l e t r np.1 np.2,
     Event.saveMultitaperParameters e np.1 np.2]

/-- The invocation sequence of the stratified-coherence loop nest on
given covariate and entry lists, when every call returns normally:
covariates outer, entries inner. -/
def stratifiedTrace {L T R RI : Type} (e : EpochIndex) (l : L) (t : T)
    (ri : RI) (covs : List String)
    (ps : List (String × MultitaperParams)) : List (Event L T R RI) :=
  covs.flatMap fun cov =>
    ps.flatMap fun np =>
      [Event.coherenceByRippleType l ri cov np.1 np.2,
       Event.canonicalCoherenceByRippleType l e t ri cov np.1 np.2]

/-- The complete invocation sequence of a run in which no collaborator
call raises, given the values the fallible collaborators returned. -/
def fullTrace {L T R RI : Type} (e : EpochIndex) (l : L) (t : T) (r : R)
    (ri : RI) : List (Event L T R RI) :=
  Event.detectEpochRipples e sampling_frequency ::
  Event.getEpochLfps e ::
  Event.saveTetrodePairInfo e t ::
  (triggeredTrace e l t r multitaper_parameters ++
    (Event.decodeRippleClusterless e r ::
     Event.saveRippleInfo e ri ::
     stratifiedTrace e l t ri ripple_covariates multitaper_parameters))

/-- A collaborator behavior in which every call returns normally, over
unit payload types; exercises the run theorems on a concrete instance. -/
def okCollaborators : Collaborators Unit Unit Unit Unit Unit Unit :=
  ⟨fun _ _ _ => Except.ok (), fun _ _ => Except.ok ((), ()),
   fun _ _ => Except.ok (), fun _ _ _ _ => Except.ok (),
   fun _ _ _ _ _ _ => Except.ok (), fun _ _ _ => Except.ok (),
   fun _ _ _ => Except.ok ((), ()), fun _ _ => Except.ok (),
   fun _ _ _ _ _ => Except.ok (), fun _ _ _ _ _ _ _ => Except.ok ()⟩

/-- A collaborator behavior whose ripple detector raises and whose other
calls return normally; exercises the failure-propagation theorem. -/
def detectorFailure : Collaborators Unit Unit Unit Unit Unit String :=
  ⟨fun _ _ _ => Except.error "epoch not found",
   fun _ _ => Except.ok ((), ()),
   fun _ _ => Except.ok (), fun _ _ _ _ => Except.ok (),
   fun _ _ _ _ _ _ => Except.ok (), fun _ _ _ => Except.ok (),
   fun _ _ _ => Except.ok ((), ()), fun _ _ => Except.ok (),
   fun _ _ _ _ _ => Except.ok (), fun _ _ _ _ _ _ _ => Except.ok ()⟩

/-- A catalog entry violating both specification constraints: its
desired-frequency pair and its window of interest are both decreasing. -/
def malformedEntry : MultitaperParams :=
  ⟨sampling_frequency, 0.020, 0.020, (300, 100), 1, (0.400, -0.420)⟩

theorem bindRun_ok {E ε α : Type} {r : List E × Except ε α}
    {k : α → List E × Except ε Unit}
    (h : (bindRun r k).2 = Except.ok ()) :
    ∃ a, r.2 = Except.ok a ∧ (k a).2 = Except.ok () ∧
      (bindRun r k).1 = r.1 ++ (k a).1 := by
  obtain ⟨tr, res⟩ := r
  cases res with
  | error err => simp [bindRun] at h
  | ok a => exact ⟨a, rfl, by simpa [bindRun] using h, by simp [bindRun]⟩

theorem callStep_ok {E ε α : Type} {ev : E} {res : Except ε α}
    {k : α → List E × Except ε Unit}
    (h : (callStep ev res k).2 = Except.ok ()) :
    ∃ a, res = Except.ok a ∧ (k a).2 = Except.ok () ∧
      (callStep ev res k).1 = ev :: (k a).1 := by
  obtain ⟨a, h1, h2, h3⟩ := bindRun_ok h
  exact ⟨a, h1, h2, by simpa using h3⟩

theorem triggeredPhase_ok {L T R RI D ε : Type}
    (c : Collaborators L T R RI D ε) (e : EpochIndex) (l : L) (t : T)
    (r : R) (ps : List (String × MultitaperParams))
    (h : (triggeredPhase c e l t r ps).2 = Except.ok ()) :
    (triggeredPhase c e l t r ps).1 = triggeredTrace e l t r ps := by
  induction ps with
  | nil => rfl
  | cons np rest ih =>
    obtain ⟨n, p⟩ := np
    rw [triggeredPhase] at h ⊢
    obtain ⟨a1, h1, hk1, e1⟩ := callStep_ok h
    obtain ⟨a2, h2, hk2, e2⟩ := callStep_ok hk1
    obtain ⟨a3, h3, hk3, e3⟩ := callStep_ok hk2
    rw [e1, e2, e3, ih hk3]
    simp [triggeredTrace]

theorem stratifiedInner_ok {L T R RI D ε : Type}
    (c : Collaborators L T R RI D ε) (e : EpochIndex) (l : L) (t : T)
    (ri : RI) (cov : String) (ps : List (String × MultitaperParams))
    (h : (stratifiedInner c e l t ri cov ps).2 = Except.ok ()) :
    (stratifiedInner c e l t ri cov ps).1 =
      ps.flatMap fun np =>
        [Event.coherenceByRippleType l ri cov np.1 np.2,
         Event.canonicalCoherenceByRippleType l e t ri cov np.1 np.2] := by
  induction ps with
  | nil => rfl
  | cons np rest ih =>
    obtain ⟨n, p⟩ := np
    rw [stratifiedInner] at h ⊢
    obtain ⟨a1, h1, hk1, e1⟩ := callStep_ok h
    obtain ⟨a2, h2, hk2, e2⟩ := callStep_ok hk1
    rw [e1, e2, ih hk2]
    simp

theorem stratifiedPhase_ok {L T R RI D ε : Type}
    (c : Collaborators L T R RI D ε) (e : EpochIndex) (l : L) (t : T)
    (ri : RI) (covs : List String)
    (h : (stratifiedPhase c e l t ri covs).2 = Except.ok ()) :
    (stratifiedPhase c e l t ri covs).1 =
      stratifiedTrace e l t ri covs multitaper_parameters := by
  induction covs with
  | nil => rfl
  | cons cov rest ih =>
    rw [stratifiedPhase] at h ⊢
    obtain ⟨a1, h1, hk1, e1⟩ := bindRun_ok h
    rw [e1, stratifiedInner_ok c e l t ri cov _ h1, ih hk1]
    simp [stratifiedTrace]

/-- Characterization of a run that completes without a collaborator
failure: there are values the detector, loader and classifier returned,
and the invocation sequence is exactly `fullTrace` built from them. -/
theorem run_ok_trace {L T R RI D ε : Type}
    (c : Collaborators L T R RI D ε) (e : EpochIndex)
    (hok : (estimate_ripple_coherence c e).2 = Except.ok ()) :
    ∃ (rt : R) (lt : L × T) (rid : RI × D),
      c.detect_epoch_ripples e animals sampling_frequency =
        Except.ok rt ∧
      c.get_epoch_lfps e animals = Except.ok lt ∧
      c.decode_ripple_clusterless e animals rt = Except.ok rid ∧
      (estimate_ripple_coherence c e).1 = fullTrace e lt.1 lt.2 rt rid.1
    := by
  rw [estimate_ripple_coherence] at hok
  obtain ⟨rt, hdet, hk1, e1⟩ := callStep_ok hok
  obtain ⟨lt, hlfp, hk2, e2⟩ := callStep_ok hk1
  obtain ⟨a3, hsav, hk3, e3⟩ := callStep_ok hk2
  obtain ⟨a4, htrig, hk4, e4⟩ := bindRun_ok hk3
  obtain ⟨rid, hdec, hk5, e5⟩ := callStep_ok hk4
  obtain ⟨a6, hsri, hk6, e6⟩ := callStep_ok hk5
  refine ⟨rt, lt, rid, hdet, hlfp, hdec, ?_⟩
  rw [estimate_ripple_coherence, e1, e2, e3, e4, e5, e6,
    triggeredPhase_ok c e lt.1 lt.2 rt _ htrig,
    stratifiedPhase_ok c e lt.1 lt.2 rid.1 _ hk6]
  simp [fullTrace]

theorem usesRippleInfo_stratifiedTrace {L T R RI : Type}
    (e : EpochIndex) (l : L) (t : T) (ri : RI) (covs : List String)
    (ps : List (String × MultitaperParams)) :
    ∀ ev ∈ (stratifiedTrace e l t ri covs ps : List (Event L T R RI)),
      usesRippleInfo ri ev := by
  intro ev hev
  simp only [stratifiedTrace, List.mem_flatMap, List.mem_cons,
    List.mem_singleton, List.not_mem_nil, or_false] at hev
  obtain ⟨cov, _, np, _, h⟩ := hev
  rcases h with h | h <;> subst h <;> trivial

/-- C1: for every epoch run that completes without a collaborator
failure, the Coherence Engine is invoked exactly 64 times: 16 in the
ripple-triggered phase (one pairwise and one canonical call per each of
the 8 catalog entries) and 48 in the covariate-stratified phase (one
pairwise and one canonical call per each of the 3 covariates crossed
with each of the 8 catalog entries). -/
theorem coherence_engine_invoked_64_times {L T R RI D ε : Type}
    (c : Collaborators L T R RI D ε) (e : EpochIndex)
    (hok : (estimate_ripple_coherence c e).2 = Except.ok ()) :
    List.countP isCoherenceCall (estimate_ripple_coherence c e).1 = 64 ∧
    List.countP isTriggeredCoherenceCall
      (estimate_ripple_coherence c e).1 = 16 ∧
    List.countP isStratifiedCoherenceCall
      (estimate_ripple_coherence c e).1 = 48 ∧
    (∀ np ∈ multitaper_parameters,
      List.countP (isTriggeredPairwiseNamed np.1)
        (estimate_ripple_coherence c e).1 = 1 ∧
      List.countP (isTriggeredCanonicalNamed np.1)
        (estimate_ripple_coherence c e).1 = 1) ∧
    (∀ cov ∈ ripple_covariates, ∀ np ∈ multitaper_parameters,
      List.countP (isStratifiedPairwiseNamed cov np.1)
        (estimate_ripple_coherence c e).1 = 1 ∧
      List.countP (isStratifiedCanonicalNamed cov np.1)
        (estimate_ripple_coherence c e).1 = 1) := by
  obtain ⟨rt, lt, rid, hdet, hlfp, hdec, htr⟩ := run_ok_trace c e hok
  rw [htr]
  refine ⟨rfl, rfl, rfl, ?_, ?_⟩
  · intro np hnp
    fin_cases hnp <;> exact ⟨rfl, rfl⟩
  · intro cov hcov np hnp
    fin_cases hcov <;> fin_cases hnp <;> exact ⟨rfl, rfl⟩

/-- C1 witness: the count theorem applied to an all-ok collaborator
behavior on the epoch ('HPa', 3, 2). -/
theorem coherence_engine_invoked_64_times_witness :
    (estimate_ripple_coherence okCollaborators ("HPa", 3, 2)).2 =
      Except.ok () ∧
    List.countP isCoherenceCall
      (estimate_ripple_coherence okCollaborators ("HPa", 3, 2)).1 = 64 ∧
    List.countP isTriggeredCoherenceCall
      (estimate_ripple_coherence okCollaborators ("HPa", 3, 2)).1 = 16 ∧
    List.countP isStratifiedCoherenceCall
      (estimate_ripple_coherence okCollaborators ("HPa", 3, 2)).1 = 48 :=
  ⟨rfl,
   (coherence_engine_invoked_64_times okCollaborators ("HPa", 3, 2)
      rfl).1,
   (coherence_engine_invoked_64_times okCollaborators ("HPa", 3, 2)
      rfl).2.1,
   (coherence_engine_invoked_64_times okCollaborators ("HPa", 3, 2)
      rfl).2.2.1⟩

/-- C3: in every run that completes without a collaborator failure,
`save_tetrode_pair_info` is called exactly once, and that call occurs
before every Coherence Engine invocation of either phase. -/
theorem save_tetrode_pair_info_once_before_coherence
    {L T R RI D ε : Type} (c : Collaborators L T R RI D ε)
    (e : EpochIndex)
    (hok : (estimate_ripple_coherence c e).2 = Except.ok ()) :
    List.countP isSaveTetrodePairInfo
      (estimate_ripple_coherence c e).1 = 1 ∧
    ∃ (t : T) (pre post : List (Event L T R RI)),
      (estimate_ripple_coherence c e).1 =
        pre ++ Event.saveTetrodePairInfo e t :: post ∧
      List.countP isSaveTetrodePairInfo pre = 0 ∧
      List.countP isSaveTetrodePairInfo post = 0 ∧
      List.countP isCoherenceCall pre = 0 := by
  obtain ⟨rt, lt, rid, hdet, hlfp, hdec, htr⟩ := run_ok_trace c e hok
  rw [htr]
  exact ⟨rfl, lt.2,
    [Event.detectEpochRipples e sampling_frequency,
     Event.getEpochLfps e],
    (fullTrace e lt.1 lt.2 rt rid.1).drop 3, rfl, rfl, rfl, rfl⟩

/-- C3 witness: the ordering theorem applied to an all-ok collaborator
behavior on the epoch ('HPa', 3, 2). -/
theorem save_tetrode_pair_info_once_before_coherence_witness :
    (estimate_ripple_coherence okCollaborators ("HPa", 3, 2)).2 =
      Except.ok () ∧
    List.countP isSaveTetrodePairInfo
      (estimate_ripple_coherence okCollaborators ("HPa", 3, 2)).1 = 1 :=
  ⟨rfl,
   (save_tetrode_pair_info_once_before_coherence okCollaborators
      ("HPa", 3, 2) rfl).1⟩

/-- C4: in every run that completes without a collaborator failure, the
Ripple Classifier is invoked exactly once, the ripple info used
downstream is the first element of the classifier's result tuple, and
`save_ripple_info` is called exactly once, after classification and
before any covariate-stratified coherence call. -/
theorem ripple_classifier_once_and_save_ripple_info_ordered
    {L T R RI D ε : Type} (c : Collaborators L T R RI D ε)
    (e : EpochIndex)
    (hok : (estimate_ripple_coherence c e).2 = Except.ok ()) :
    List.countP isDecodeRippleClusterless
      (estimate_ripple_coherence c e).1 = 1 ∧
    List.countP isSaveRippleInfo (estimate_ripple_coherence c e).1 = 1 ∧
    ∃ (rt : R) (rid : RI × D) (pre post : List (Event L T R RI)),
      c.decode_ripple_clusterless e animals rt = Except.ok rid ∧
      (estimate_ripple_coherence c e).1 =
        pre ++ Event.saveRippleInfo e rid.1 :: post ∧
      List.countP isDecodeRippleClusterless pre = 1 ∧
      List.countP isStratifiedCoherenceCall pre = 0 ∧
      ∀ ev ∈ post, usesRippleInfo rid.1 ev := by
  obtain ⟨rt, lt, rid, hdet, hlfp, hdec, htr⟩ := run_ok_trace c e hok
  rw [htr]
  refine ⟨rfl, rfl, rt, rid,
    Event.detectEpochRipples e sampling_frequency ::
      Event.getEpochLfps e ::
      Event.saveTetrodePairInfo e lt.2 ::
      (triggeredTrace e lt.1 lt.2 rt multitaper_parameters ++
        [Event.decodeRippleClusterless e rt]),
    stratifiedTrace e lt.1 lt.2 rid.1 ripple_covariates
      multitaper_parameters,
    hdec, ?_, ?_, ?_, ?_⟩
  · simp [fullTrace]
  · rfl
  · rfl
  · exact usesRippleInfo_stratifiedTrace e lt.1 lt.2 rid.1 _ _

/-- C4 witness: the classifier/persistence theorem applied to an all-ok
collaborator behavior on the epoch ('HPa', 3, 2). -/
theorem ripple_classifier_once_and_save_ripple_info_ordered_witness :
    (estimate_ripple_coherence okCollaborators ("HPa", 3, 2)).2 =
      Except.ok () ∧
    List.countP isDecodeRippleClusterless
      (estimate_ripple_coherence okCollaborators ("HPa", 3, 2)).1 = 1 ∧
    List.countP isSaveRippleInfo
      (estimate_ripple_coherence okCollaborators ("HPa", 3, 2)).1 = 1 :=
  ⟨rfl,
   (ripple_classifier_once_and_save_ripple_info_ordered okCollaborators
      ("HPa", 3, 2) rfl).1,
   (ripple_classifier_once_and_save_ripple_info_ordered okCollaborators
      ("HPa", 3, 2) rfl).2.1⟩

/-- C5: if the Ripple Detector raises, the run performs no LFP Loader,
Ripple Classifier, Coherence Engine, or Persistence Layer call, and the
run's outcome is the detector's error. -/
theorem detector_failure_propagates {L T R RI D ε : Type}
    (c : Collaborators L T R RI D ε) (e : EpochIndex) (err : ε)
    (hdet : c.detect_epoch_ripples e animals sampling_frequency =
      Except.error err) :
    (estimate_ripple_coherence c e).1 =
      [Event.detectEpochRipples e sampling_frequency] ∧
    (estimate_ripple_coherence c e).2 = Except.error err ∧
    List.countP isGetEpochLfps (estimate_ripple_coherence c e).1 = 0 ∧
    List.countP isDecodeRippleClusterless
      (estimate_ripple_coherence c e).1 = 0 ∧
    List.countP isCoherenceCall (estimate_ripple_coherence c e).1 = 0 ∧
    List.countP isPersistenceCall (estimate_ripple_coherence c e).1 = 0
    := by
  have h : estimate_ripple_coherence c e =
      ([Event.detectEpochRipples e sampling_frequency],
       Except.error err) := by
    simp only [estimate_ripple_coherence, callStep, hdet]
    rfl
  rw [h]
  exact ⟨rfl, rfl, rfl, rfl, rfl, rfl⟩

/-- C5 witness: the failure-propagation theorem applied to a
collaborator behavior whose detector raises, on the epoch
('HPa', 3, 2). -/
theorem detector_failure_propagates_witness :
    detectorFailure.detect_epoch_ripples ("HPa", 3, 2) animals
      sampling_frequency = Except.error "epoch not found" ∧
    (estimate_ripple_coherence detectorFailure ("HPa", 3, 2)).1 =
      [Event.detectEpochRipples ("HPa", 3, 2) sampling_frequency] ∧
    (estimate_ripple_coherence detectorFailure ("HPa", 3, 2)).2 =
      Except.error "epoch not found" :=
  ⟨rfl,
   (detector_failure_propagates detectorFailure ("HPa", 3, 2)
      "epoch not found" rfl).1,
   (detector_failure_propagates detectorFailure ("HPa", 3, 2)
      "epoch not found" rfl).2.1⟩

/-- C7: in every run that completes without a collaborator failure,
`save_multitaper_parameters` is called exactly 8 times, and for each
catalog entry exactly once with that entry's name and parameters, after
both the pairwise and the canonical triggered-coherence calls for that
entry. -/
theorem save_multitaper_parameters_once_per_entry
    {L T R RI D ε : Type} (c : Collaborators L T R RI D ε)
    (e : EpochIndex)
    (hok : (estimate_ripple_coherence c e).2 = Except.ok ()) :
    List.countP isSaveMultitaperParameters
      (estimate_ripple_coherence c e).1 = 8 ∧
    ∀ np ∈ multitaper_parameters,
      ∃ pre post : List (Event L T R RI),
        (estimate_ripple_coherence c e).1 =
          pre ++ Event.saveMultitaperParameters e np.1 np.2 :: post ∧
        List.countP (isSaveMultitaperParametersNamed np.1) pre = 0 ∧
        List.countP (isSaveMultitaperParametersNamed np.1) post = 0 ∧
        List.countP (isTriggeredPairwiseNamed np.1) pre = 1 ∧
        List.countP (isTriggeredCanonicalNamed np.1) pre = 1 := by
  obtain ⟨rt, lt, rid, hdet, hlfp, hdec, htr⟩ := run_ok_trace c e hok
  rw [htr]
  refine ⟨rfl, ?_⟩
  intro np hnp
  fin_cases hnp
  · refine ⟨(fullTrace e lt.1 lt.2 rt rid.1).take 5,
      (fullTrace e lt.1 lt.2 rt rid.1).drop 6, ?_, ?_, ?_, ?_, ?_⟩ <;>
      rfl
  · refine ⟨(fullTrace e lt.1 lt.2 rt rid.1).take 8,
      (fullTrace e lt.1 lt.2 rt rid.1).drop 9, ?_, ?_, ?_, ?_, ?_⟩ <;>
      rfl
  · refine ⟨(fullTrace e lt.1 lt.2 rt rid.1).take 11,
      (fullTrace e lt.1 lt.2 rt rid.1).drop 12, ?_, ?_, ?_, ?_, ?_⟩ <;>
      rfl
  · refine ⟨(fullTrace e lt.1 lt.2 rt rid.1).take 14,
      (fullTrace e lt.1 lt.2 rt rid.1).drop 15, ?_, ?_, ?_, ?_, ?_⟩ <;>
      rfl
  · refine ⟨(fullTrace e lt.1 lt.2 rt rid.1).take 17,
      (fullTrace e lt.1 lt.2 rt rid.1).drop 18, ?_, ?_, ?_, ?_, ?_⟩ <;>
      rfl
  · refine ⟨(fullTrace e lt.1 lt.2 rt rid.1).take 20,
      (fullTrace e lt.1 lt.2 rt rid.1).drop 21, ?_, ?_, ?_, ?_, ?_⟩ <;>
      rfl
  · refine ⟨(fullTrace e lt.1 lt.2 rt rid.1).take 23,
      (fullTrace e lt.1 lt.2 rt rid.1).drop 24, ?_, ?_, ?_, ?_, ?_⟩ <;>
      rfl
  · refine ⟨(fullTrace e lt.1 lt.2 rt rid.1).take 26,
      (fullTrace e lt.1 lt.2 rt rid.1).drop 27, ?_, ?_, ?_, ?_, ?_⟩ <;>
      rfl

/-- C7 witness: the parameter-persistence theorem applied to an all-ok
collaborator behavior on the epoch ('HPa', 3, 2). -/
theorem save_multitaper_parameters_once_per_entry_witness :
    (estimate_ripple_coherence okCollaborators ("HPa", 3, 2)).2 =
      Except.ok () ∧
    List.countP isSaveMultitaperParameters
      (estimate_ripple_coherence okCollaborators ("HPa", 3, 2)).1 = 8 :=
  ⟨rfl,
   (save_multitaper_parameters_once_per_entry okCollaborators
      ("HPa", 3, 2) rfl).1⟩

/-- C8: in every run that completes without a collaborator failure, the
covariate-stratified phase iterates with the covariate as the outer loop
and the catalog entry as the inner loop, and the covariates are visited
in the fixed order 'session_time', 'ripple_trajectory',
'ripple_direction'. -/
theorem stratified_phase_covariate_outer_loop
    {L T R RI D ε : Type} (c : Collaborators L T R RI D ε)
    (e : EpochIndex)
    (hok : (estimate_ripple_coherence c e).2 = Except.ok ()) :
    ripple_covariates =
      ["session_time", "ripple_trajectory", "ripple_direction"] ∧
    ∃ (l : L) (t : T) (ri : RI),
      List.filter isStratifiedCoherenceCall
        (estimate_ripple_coherence c e).1 =
      ripple_covariates.flatMap fun cov =>
        multitaper_parameters.flatMap fun np =>
          [Event.coherenceByRippleType l ri cov np.1 np.2,
           Event.canonicalCoherenceByRippleType l e t ri cov np.1 np.2]
    := by
  obtain ⟨rt, lt, rid, hdet, hlfp, hdec, htr⟩ := run_ok_trace c e hok
  rw [htr]
  exact ⟨rfl, lt.1, lt.2, rid.1, rfl⟩

/-- C8 witness: the loop-nesting theorem applied to an all-ok
collaborator behavior on the epoch ('HPa', 3, 2). -/
theorem stratified_phase_covariate_outer_loop_witness :
    (estimate_ripple_coherence okCollaborators ("HPa", 3, 2)).2 =
      Except.ok () ∧
    ripple_covariates =
      ["session_time", "ripple_trajectory", "ripple_direction"] :=
  ⟨rfl,
   (stratified_phase_covariate_outer_loop okCollaborators ("HPa", 3, 2)
      rfl).1⟩

/-- C9: two invocations of the pipeline with identical inputs and
identical collaborator behavior produce the same sequence of persistence
calls with pairwise identical arguments; moreover on a successful run
that sequence is the fixed catalog-ordered sequence: tetrode-pair info,
then the eight parameter sets in catalog order, then ripple info. -/
theorem persistence_calls_deterministic {L T R RI D ε : Type}
    (c1 c2 : Collaborators L T R RI D ε) (e1 e2 : EpochIndex)
    (hc : c1 = c2) (he : e1 = e2) :
    List.filter isPersistenceCall (estimate_ripple_coherence c1 e1).1 =
      List.filter isPersistenceCall
        (estimate_ripple_coherence c2 e2).1 ∧
    ((estimate_ripple_coherence c1 e1).2 = Except.ok () →
      ∃ (t : T) (ri : RI),
        List.filter isPersistenceCall
          (estimate_ripple_coherence c1 e1).1 =
        Event.saveTetrodePairInfo e1 t ::
          ((multitaper_parameters.map fun np =>
              Event.saveMultitaperParameters e1 np.1 np.2) ++
            [Event.saveRippleInfo e1 ri])) := by
  subst hc
  subst he
  refine ⟨rfl, fun hok => ?_⟩
  obtain ⟨rt, lt, rid, hdet, hlfp, hdec, htr⟩ := run_ok_trace c1 e1 hok
  rw [htr]
  exact ⟨lt.2, rid.1, rfl⟩

/-- C9 witness: the determinism theorem applied twice to the same all-ok
collaborator behavior on the epoch ('HPa', 3, 2). -/
theorem persistence_calls_deterministic_witness :
    List.filter isPersistenceCall
      (estimate_ripple_coherence okCollaborators ("HPa", 3, 2)).1 =
    List.filter isPersistenceCall
      (estimate_ripple_coherence okCollaborators ("HPa", 3, 2)).1 :=
  (persistence_calls_deterministic okCollaborators okCollaborators
    ("HPa", 3, 2) ("HPa", 3, 2) rfl rfl).1

/-- C2 counterexample: the catalog is not validated at construction
time.  A list holding a malformed entry (both constraint pairs
decreasing) is neither well formed nor rejected by construction: the
program would proceed rather than fail fast. -/
theorem catalog_construction_not_validated :
    ¬ ((∀ np ∈ [("malformed", malformedEntry)],
          validCatalogEntry np.2) ∨
       ∃ err, constructCatalog [("malformed", malformedEntry)] =
         Except.error err) := by
  rintro (h | ⟨err, h⟩)
  · have hm := h ("malformed", malformedEntry) (by simp)
    rw [validCatalogEntry] at hm
    norm_num [malformedEntry] at hm
  · rw [constructCatalog] at h
    exact Except.noConfusion h

/-- C2 amended: the Parameter Catalog is built by a plain dict literal
with no construction-time validation — construction succeeds for every
entry list, including malformed ones, so the program would not fail
fast; however, every entry of the actual catalog does satisfy
`window_of_interest[0] < window_of_interest[1]` and
`desired_frequencies[0] < desired_frequencies[1]`, so the startup
catalog is in fact well formed. -/
theorem catalog_constructed_without_validation :
    (∀ entries : List (String × MultitaperParams),
       constructCatalog entries = Except.ok entries) ∧
    ∀ np ∈ multitaper_parameters, validCatalogEntry np.2 := by
  refine ⟨fun entries => rfl, ?_⟩
  intro np hnp
  fin_cases hnp <;>
    norm_num [validCatalogEntry, ripple_frequency,
      gamma_frequency_highTimeRes, gamma_frequency_medFreqRes1,
      gamma_frequency_medFreqRes2, gamma_frequency_highFreqRes,
      low_frequency_highTimeRes, low_frequency_medFreqRes,
      low_frequency_highFreqRes]

/-- C2 witness: the amended theorem applied to the malformed entry list
(construction still succeeds) and to the last catalog entry. -/
theorem catalog_constructed_without_validation_witness :
    constructCatalog [("malformed", malformedEntry)] =
      Except.ok [("malformed", malformedEntry)] ∧
    ("ripple_frequencies", ripple_frequency) ∈ multitaper_parameters ∧
    validCatalogEntry ripple_frequency :=
  ⟨catalog_constructed_without_validation.1 _,
   by simp [multitaper_parameters],
   catalog_constructed_without_validation.2
     ("ripple_frequencies", ripple_frequency)
     (by simp [multitaper_parameters])⟩

/-- C6: the Parameter Catalog contains exactly 8 named entries, and
every entry satisfies `window_of_interest[0] < window_of_interest[1]`
and `desired_frequencies[0] < desired_frequencies[1]`. -/
theorem multitaper_parameters_catalog_invariant :
    multitaper_parameters.length = 8 ∧
    ∀ np ∈ multitaper_parameters, validCatalogEntry np.2 := by
  refine ⟨rfl, ?_⟩
  intro np hnp
  fin_cases hnp <;>
    norm_num [validCatalogEntry, ripple_frequency,
      gamma_frequency_highTimeRes, gamma_frequency_medFreqRes1,
      gamma_frequency_medFreqRes2, gamma_frequency_highFreqRes,
      low_frequency_highTimeRes, low_frequency_medFreqRes,
      low_frequency_highFreqRes]

/-- C6 witness: the catalog invariant applied to the first catalog
entry. -/
theorem multitaper_parameters_catalog_invariant_witness :
    ("gamma_frequency_medFreqRes1", gamma_frequency_medFreqRes1) ∈
      multitaper_parameters ∧
    validCatalogEntry gamma_frequency_medFreqRes1 :=
  ⟨by simp [multitaper_parameters],
   multitaper_parameters_catalog_invariant.2
     ("gamma_frequency_medFreqRes1", gamma_frequency_medFreqRes1)
     (by simp [multitaper_parameters])⟩

/-- C10: the animal registry contains exactly the three keys 'HPa',
'HPb', 'HPc', and for every key the stored record's short name equals
the key. -/
theorem animals_registry_keys_match_short_names :
    animals.map Prod.fst = ["HPa", "HPb", "HPc"] ∧
    ∀ p ∈ animals, p.2.short_name = p.1 := by
  refine ⟨rfl, ?_⟩
  intro p hp
  fin_cases hp <;> rfl

/-- C10 witness: the registry invariant applied to the entry for
'HPa'. -/
theorem animals_registry_keys_match_short_names_witness :
    (("HPa", Animal.mk "HPa_direct" "HPa") ∈ animals) ∧
    Animal.short_name (Animal.mk "HPa_direct" "HPa") = "HPa" :=
  ⟨by simp [animals],
   animals_registry_keys_match_short_names.2
     ("HPa", Animal.mk "HPa_direct" "HPa") (by simp [animals])⟩
